import Mathlib

/-
Verification of the OliLab SLMS client-side state-synchronization core:
a shallow embedding of the session/auth guard (src/context/AuthContext.tsx),
the application state store (src/context/InventoryContext.tsx) and the
REST client error normalization (src/services/apiService.ts), with theorems
settling the specification's claims about them.
-/

namespace OliLab

/-! ## Data model

The entity types are imported by the source from `../types`, a file that is
not present under src/; the field sets below are modelled from the spec's
data-model section (spec.md §3) and from the fields the source code actually
reads and writes. Only the fields the claims touch are carried.
-/

/-- Modelled from the spec: user status label set `{PENDING, APPROVED, DENIED}`
(spec.md §3), used by AuthContext.tsx and Sidebar. -/
inductive UserStatus where
  | PENDING
  | APPROVED
  | DENIED
deriving DecidableEq, Repr

/-- Modelled from the spec: borrow/return log status set (spec.md §3). -/
inductive LogStatus where
  | PENDING
  | APPROVED
  | DENIED
  | RETURNED
deriving DecidableEq, Repr

/-- Modelled from the spec: log action tag (spec.md §3). -/
inductive LogAction where
  | BORROW
  | RETURN
deriving DecidableEq, Repr

/-- Modelled from the spec: the User entity (spec.md §3) — identity, profile
field, admin flag, status, and the credential field. `password = none` models
a JSON object in which the credential key is absent (the TS `SecureUser` is
`Omit<User, 'password'>`; destructuring the key away corresponds to setting
this field to `none`). -/
structure User where
  id : String
  fullName : String
  isAdmin : Bool
  status : UserStatus
  password : Option String
deriving DecidableEq, Repr

/-- Modelled from the spec: the Item entity (spec.md §3). Quantities are
integers so that "never below zero" is a real statement. -/
structure Item where
  id : String
  name : String
  category : String
  totalQuantity : Int
  availableQuantity : Int
deriving DecidableEq, Repr

/-- Modelled from the spec: a borrow/return log entry (spec.md §3). -/
structure LogEntry where
  id : String
  itemId : String
  userId : String
  action : LogAction
  quantity : Int
  status : LogStatus
deriving DecidableEq, Repr

/-- Modelled from the spec: a notification entity (spec.md §3); the source
reads its `id` and `read` fields and a type tag. -/
structure Notification where
  id : String
  ntype : String
  read : Bool
deriving DecidableEq, Repr

/-- Modelled from the spec: a suggestion entity (spec.md §3). -/
structure Suggestion where
  id : String
  description : String
deriving DecidableEq, Repr

/-- Modelled from the spec: a comment entity (spec.md §3). -/
structure Comment where
  id : String
  suggestionId : String
  userId : String
  text : String
deriving DecidableEq, Repr

/-- The aggregate application state snapshot
`{items, users, logs, notifications, suggestions, comments}` held by
InventoryContext (src/context/InventoryContext.tsx, `State`). -/
structure State where
  items : List Item
  users : List User
  logs : List LogEntry
  notifications : List Notification
  suggestions : List Suggestion
  comments : List Comment
deriving DecidableEq, Repr

/-! ## Session/auth guard (src/context/AuthContext.tsx)

The guard's observable state is the pair of the in-memory `currentUser` and
the value held under the session-storage key `oliLabSessionUser`.
`currentUser = none` is the `Anonymous` state; `some u` is
`Authenticated(u)`. -/

/-- The auth guard's state: React's `currentUser` plus the session-storage
entry (`none` means the key is absent or unparseable). -/
structure AuthSnap where
  currentUser : Option User
  session : Option User
deriving DecidableEq, Repr

/-- The TS destructuring `const { password, ...secureUser } = freshUser`
(AuthContext.tsx line 61): the credential key is removed. -/
def stripPassword (u : User) : User :=
  { u with password := none }

/-- The `logout` function (AuthContext.tsx lines 81-84): clear `currentUser`
and remove the session-storage entry. -/
def logoutAuth (_a : AuthSnap) : AuthSnap :=
  { currentUser := none, session := none }

/-- Effect 1 of AuthProvider (AuthContext.tsx lines 27-48): the synchronous
startup restore. Given the stored session value (already `none` when absent
or unparseable), keep it if the embedded status is APPROVED, otherwise
remove the entry and stay anonymous. -/
def restoreSession (stored : Option User) : AuthSnap :=
  match stored with
  | none => { currentUser := none, session := none }
  | some u =>
      if u.status = UserStatus.APPROVED then
        { currentUser := some u, session := some u }
      else
        { currentUser := none, session := none }

/-- Effect 2 of AuthProvider (AuthContext.tsx lines 52-66): once a current
user is held, the inventory load has finished and the loaded user collection
is non-empty, re-validate against the fresh collection: absent identity or
non-APPROVED status forces `logout()`; otherwise the fresh copy, minus the
credential, replaces the held user and is re-persisted to session storage. -/
def revalidateSession (a : AuthSnap) (isInventoryLoading : Bool)
    (users : List User) : AuthSnap :=
  match a.currentUser with
  | none => a
  | some cu =>
      if !isInventoryLoading && users.length > 0 then
        match users.find? (fun u => u.id == cu.id) with
        | none => logoutAuth a
        | some fresh =>
            if fresh.status = UserStatus.APPROVED then
              let secureUser := stripPassword fresh
              { currentUser := some secureUser, session := some secureUser }
            else
              logoutAuth a
      else a

/-- The success branch of `login` (AuthContext.tsx lines 69-79): the user
value returned by `api.login` is stored as `currentUser` and written to
session storage verbatim (`JSON.stringify(user)` with no field removed). -/
def loginSuccess (serverUser : User) (_a : AuthSnap) : AuthSnap :=
  { currentUser := some serverUser, session := some serverUser }

/-! ## Application state store (src/context/InventoryContext.tsx)

Execution is single-threaded; each mutation is `handleApiCall` applied to
the operation's API result and its state patch. The patch can itself throw
(the notification-dispatch call sites live inside it), so it returns both
the state as far as it got and an `Except` outcome. A pure patch is lifted
with `pureUpdate`. -/

/-- The coarse synchronization status signal (InventoryContext.tsx line 8). -/
inductive SyncStatus where
  | synced
  | syncing
  | error
deriving DecidableEq, Repr

/-- A thrown JS `Error`, carried by its message. -/
structure ApiError where
  message : String
deriving DecidableEq, Repr

/-- The store's observable state: the snapshot plus the sync status. -/
structure Store where
  state : State
  syncStatus : SyncStatus
deriving DecidableEq, Repr

/-- The uniform mutation wrapper `handleApiCall` (InventoryContext.tsx lines
69-81): on API failure the snapshot is untouched, the status is set to
`error` and the failure is re-thrown; on API success `updateState` runs —
any state it managed to set is kept, and if it throws, the catch block sets
status `error` and re-throws, otherwise status becomes `synced` and the call
resolves. -/
def handleApiCall (apiResult : Except ApiError α)
    (updateState : α → State → State × Except ApiError Unit)
    (st : Store) : Store × Except ApiError Unit :=
  match apiResult with
  | Except.error e => ({ st with syncStatus := SyncStatus.error }, Except.error e)
  | Except.ok r =>
      match updateState r st.state with
      | (s, Except.error e) =>
          ({ state := s, syncStatus := SyncStatus.error }, Except.error e)
      | (s, Except.ok _) =>
          ({ state := s, syncStatus := SyncStatus.synced }, Except.ok ())

/-- Lifts a patch that cannot throw into the `handleApiCall` shape. -/
def pureUpdate (f : α → State → State) : α → State → State × Except ApiError Unit :=
  fun r s => (f r s, Except.ok ())

/-- The `addItem` patch (InventoryContext.tsx line 86): append the
server-returned item to the items collection. -/
def addItemPatch (newItem : Item) (s : State) : State :=
  { s with items := s.items ++ [newItem] }

/-- The `deleteItem` patch (InventoryContext.tsx line 101): drop the items
whose id equals the server-returned deleted id. -/
def deleteItemPatch (deletedItemId : String) (s : State) : State :=
  { s with items := s.items.filter (fun i => !(i.id == deletedItemId)) }

/-- The `deleteUser` patch (InventoryContext.tsx line 137): drop the users
whose id equals the server-returned deleted id. -/
def deleteUserPatch (deletedUserId : String) (s : State) : State :=
  { s with users := s.users.filter (fun u => !(u.id == deletedUserId)) }

/-- The composite result of `api.createUser` (apiService.ts lines 81-86). -/
structure CreateUserResult where
  newUser : User
  newNotification : Notification
deriving DecidableEq, Repr

/-- The `createUser` state updater (InventoryContext.tsx lines 109-121),
with the external mail dispatch as an explicit parameter. In the source,
`sendNewUserAdminNotification(newUser, admins)` is invoked inside the
`setState` updater, before the new snapshot object is returned — so a throw
in the dispatch aborts the updater and no part of the patch is applied. -/
def createUserUpdate (dispatch : User → List User → Except ApiError Unit)
    (r : CreateUserResult) (s : State) : State × Except ApiError Unit :=
  let updatedUsers := s.users ++ [r.newUser]
  let admins := updatedUsers.filter (fun u => u.isAdmin)
  match dispatch r.newUser admins with
  | Except.error e => (s, Except.error e)
  | Except.ok _ =>
      ({ s with
          users := updatedUsers,
          notifications := r.newNotification :: s.notifications },
        Except.ok ())

/-- The `approveUser` state updater (InventoryContext.tsx lines 144-147):
first `setState` replaces the user by id, then
`sendAccountApprovedNotification(approvedUser)` runs — a throw there happens
after the patch is already applied. -/
def approveUserUpdate (dispatch : User → Except ApiError Unit)
    (approvedUser : User) (s : State) : State × Except ApiError Unit :=
  let s1 := { s with
    users := s.users.map (fun u => if u.id == approvedUser.id then approvedUser else u) }
  (s1, dispatch approvedUser)

/-- The composite result of `api.requestBorrowItem` (apiService.ts
lines 109-114). -/
structure RequestBorrowResult where
  newLog : LogEntry
  newNotification : Notification
deriving DecidableEq, Repr

/-- The `requestBorrowItem` patch (InventoryContext.tsx lines 164-169):
prepend the new log and the new notification. -/
def requestBorrowItemPatch (r : RequestBorrowResult) (s : State) : State :=
  { s with
      logs := r.newLog :: s.logs,
      notifications := r.newNotification :: s.notifications }

/-- The composite result of `api.approveBorrowRequest` (apiService.ts
lines 116-120). -/
structure ApproveBorrowResult where
  updatedLog : LogEntry
  updatedItem : Item
deriving DecidableEq, Repr

/-- The `approveBorrowRequest` patch (InventoryContext.tsx lines 177-182):
replace the log and the item by id. -/
def approveBorrowRequestPatch (r : ApproveBorrowResult) (s : State) : State :=
  { s with
      logs := s.logs.map (fun l => if l.id == r.updatedLog.id then r.updatedLog else l),
      items := s.items.map (fun i => if i.id == r.updatedItem.id then r.updatedItem else i) }

/-- The composite result of `api.returnItem` (apiService.ts lines 129-134). -/
structure ReturnItemResult where
  returnLog : LogEntry
  updatedBorrowLog : LogEntry
  updatedItem : Item
deriving DecidableEq, Repr

/-- The `returnItem` patch (InventoryContext.tsx lines 197-202): in one
state transition, prepend the return log to the logs with the borrow log
replaced by id, and replace the item by id. -/
def returnItemPatch (r : ReturnItemResult) (s : State) : State :=
  { s with
      logs := r.returnLog ::
        s.logs.map (fun l => if l.id == r.updatedBorrowLog.id then r.updatedBorrowLog else l),
      items := s.items.map (fun i => if i.id == r.updatedItem.id then r.updatedItem else i) }

/-- The `markNotificationsAsRead` patch (InventoryContext.tsx lines
223-228): set `read := true` on the notifications whose id is in the echoed
list. -/
def markNotificationsAsReadPatch (readIds : List String) (s : State) : State :=
  { s with
      notifications := s.notifications.map
        (fun n => if readIds.contains n.id then { n with read := true } else n) }

/-- The `addComment` patch (InventoryContext.tsx line 282): prepend the new
comment. -/
def addCommentPatch (newComment : Comment) (s : State) : State :=
  { s with comments := newComment :: s.comments }

/-- The `editItem` patch (InventoryContext.tsx line 93): replace the item
by id. -/
def editItemPatch (updatedItem : Item) (s : State) : State :=
  { s with
      items := s.items.map
        (fun i => if i.id == updatedItem.id then updatedItem else i) }

/-- The `editUser` patch (InventoryContext.tsx line 129): replace the user
by id. -/
def editUserPatch (updatedUser : User) (s : State) : State :=
  { s with
      users := s.users.map
        (fun u => if u.id == updatedUser.id then updatedUser else u) }

/-- The `denyUser` state updater (InventoryContext.tsx lines 154-156):
first `setState` replaces the user by id, then
`sendAccountDeniedNotification(deniedUser)` runs. -/
def denyUserUpdate (dispatch : User → Except ApiError Unit)
    (deniedUser : User) (s : State) : State × Except ApiError Unit :=
  let s1 := { s with
    users := s.users.map (fun u => if u.id == deniedUser.id then deniedUser else u) }
  (s1, dispatch deniedUser)

/-- The `denyBorrowRequest` patch (InventoryContext.tsx line 190): replace
the log by id. -/
def denyBorrowRequestPatch (updatedLog : LogEntry) (s : State) : State :=
  { s with
      logs := s.logs.map
        (fun l => if l.id == updatedLog.id then updatedLog else l) }

/-- The composite result of `api.requestItemReturn` (apiService.ts
lines 136-140). -/
structure RequestItemReturnResult where
  updatedLog : LogEntry
  newNotification : Notification
deriving DecidableEq, Repr

/-- The `requestItemReturn` patch (InventoryContext.tsx lines 210-215):
replace the log by id and prepend the new notification. -/
def requestItemReturnPatch (r : RequestItemReturnResult) (s : State) : State :=
  { s with
      logs := s.logs.map (fun l => if l.id == r.updatedLog.id then r.updatedLog else l),
      notifications := r.newNotification :: s.notifications }

/-- The `addSuggestion` patch (InventoryContext.tsx line 235): prepend the
new suggestion. -/
def addSuggestionPatch (newSuggestion : Suggestion) (s : State) : State :=
  { s with suggestions := newSuggestion :: s.suggestions }

/-- The composite result of `api.approveItemSuggestion` (apiService.ts
lines 161-166). -/
structure ApproveItemSuggestionResult where
  updatedSuggestion : Suggestion
  newItem : Item
deriving DecidableEq, Repr

/-- The `approveItemSuggestion` patch (InventoryContext.tsx lines 242-247):
replace the suggestion by id and append the new item. -/
def approveItemSuggestionPatch (r : ApproveItemSuggestionResult) (s : State) : State :=
  { s with
      suggestions := s.suggestions.map
        (fun x => if x.id == r.updatedSuggestion.id then r.updatedSuggestion else x),
      items := s.items ++ [r.newItem] }

/-- The `approveFeatureSuggestion` patch (InventoryContext.tsx line 255):
replace the suggestion by id. -/
def approveFeatureSuggestionPatch (updatedSuggestion : Suggestion) (s : State) : State :=
  { s with
      suggestions := s.suggestions.map
        (fun x => if x.id == updatedSuggestion.id then updatedSuggestion else x) }

/-- The composite result of `api.denySuggestion` (apiService.ts
lines 172-177). -/
structure DenySuggestionResult where
  updatedSuggestion : Suggestion
  newComment : Comment
deriving DecidableEq, Repr

/-- The `denySuggestion` patch (InventoryContext.tsx lines 262-267):
replace the suggestion by id and prepend the new comment. -/
def denySuggestionPatch (r : DenySuggestionResult) (s : State) : State :=
  { s with
      suggestions := s.suggestions.map
        (fun x => if x.id == r.updatedSuggestion.id then r.updatedSuggestion else x),
      comments := r.newComment :: s.comments }

/-- The `importItems` patch (InventoryContext.tsx line 275): append the
server-returned items in order. -/
def importItemsPatch (newItems : List Item) (s : State) : State :=
  { s with items := s.items ++ newItems }

/-! ## Remote API client (src/services/apiService.ts) -/

/-- An outgoing HTTP request, as issued by `apiFetch`. -/
structure HttpRequest where
  method : String
  path : String
deriving DecidableEq, Repr

/-- The observable behaviour of one client operation: the HTTP requests it
issues and its outcome. -/
structure ApiAction (α : Type) where
  requests : List HttpRequest
  result : Except ApiError α

/-- The `markNotificationsAsRead` client operation (apiService.ts lines
142-146): it performs no `fetch` at all and resolves with the input
identity list unchanged. -/
def markNotificationsAsReadApi (notificationIds : List String) :
    ApiAction (List String) :=
  { requests := [], result := Except.ok notificationIds }

/-- The result of attempting `response.json()` on an error body: the
`message` and `error` properties of the parsed object, when the body is
valid JSON. `none` for a property models the key being absent or not a
string. -/
structure JsonErrorBody where
  message : Option String
  error : Option String
deriving DecidableEq, Repr

/-- A backend HTTP response with a non-success status, as observed by
`apiFetch`: the numeric status, the JSON parse of the body (`none` when the
body is not parseable JSON) and the raw body text. -/
structure HttpErrorResponse where
  status : Nat
  jsonBody : Option JsonErrorBody
  text : String
deriving DecidableEq, Repr

/-- JS `a || b` on an optional string property: the property's value when
present and truthy (non-empty), otherwise the fallback. -/
def jsOrElse (a : Option String) (b : String) : String :=
  match a with
  | some s => if s = "" then b else s
  | none => b

/-- The failure `apiFetch` ends in on a non-success response. `requestFailed`
is the `Error(errorMessage)` built and thrown at apiService.ts line 30;
`bodyAlreadyRead` is the runtime TypeError that `response.text()` rejects
with after `response.json()` has already consumed the body stream — its
message text is runtime-dependent and carries neither the body text nor the
HTTP status, so it is modelled without a message. -/
inductive ApiFetchFailure where
  | requestFailed (message : String)
  | bodyAlreadyRead
deriving DecidableEq, Repr

/-- The failure outcome of `apiFetch` on a non-success response
(apiService.ts lines 21-31 and 36-45). When the body parses as JSON, the
thrown message is `errorData.message || errorData.error || 'An unknown
server error occurred.'`, re-thrown unchanged by the outer catch. When
`response.json()` rejects, it has already consumed the response body
stream, so the catch block's `await response.text()` itself rejects with
the runtime's body-already-read TypeError; that rejection escapes the catch
and is re-thrown as-is by the outer handler at line 44 — the raw-text and
`HTTP Error: <status>` fallbacks written at lines 27-28 are unreachable. -/
def apiFetchFailureOf (resp : HttpErrorResponse) : ApiFetchFailure :=
  match resp.jsonBody with
  | some errorData =>
      ApiFetchFailure.requestFailed
        (jsOrElse errorData.message
          (jsOrElse errorData.error "An unknown server error occurred."))
  | none => ApiFetchFailure.bodyAlreadyRead

/-- One string occurs inside another, stated structurally on the character
lists. -/
def containsSubstring (msg sub : String) : Prop :=
  ∃ pre post, msg.data = pre ++ sub.data ++ post

/-- Written from the claim's words, for comparison with
`apiFetchFailureOf`: the client "fails with a message extracted from the
JSON error body when one is present, falling back to the raw response text
when the body is not parseable JSON, and falling back to a generic message
containing the HTTP status otherwise". -/
def claimedErrorMessage (resp : HttpErrorResponse) (f : ApiFetchFailure) : Prop :=
  ∃ msg, f = ApiFetchFailure.requestFailed msg ∧
    (match resp.jsonBody with
     | some errorData => errorData.message = some msg ∨ errorData.error = some msg
     | none =>
         if resp.text = "" then containsSubstring msg (toString resp.status)
         else msg = resp.text)

/-- The amended description of the failure outcome, written from its
corrected wording: for a parseable JSON body the client fails with the
body's non-empty `message` property, else its non-empty `error` property,
else the fixed text `An unknown server error occurred.`; for a body that is
not parseable JSON the parse attempt has already consumed the body stream,
so the client fails with the runtime's body-already-read error — never with
the raw text or an HTTP-status message. -/
def amendedErrorOutcome (resp : HttpErrorResponse) (f : ApiFetchFailure) : Prop :=
  match resp.jsonBody with
  | some errorData =>
      ∃ msg, f = ApiFetchFailure.requestFailed msg ∧
        ((errorData.message = some msg ∧ msg ≠ "") ∨
          ((∀ m, errorData.message = some m → m = "") ∧
            errorData.error = some msg ∧ msg ≠ "") ∨
          ((∀ m, errorData.message = some m → m = "") ∧
            (∀ m, errorData.error = some m → m = "") ∧
            msg = "An unknown server error occurred."))
  | none => f = ApiFetchFailure.bodyAlreadyRead

/-! ## Spec-modelled backend handler for borrow approval

The decrement of an item's available quantity on borrow approval is
computed by the Java backend, which is not part of this repository's src/;
the client (apiService.ts lines 116-120) only posts to
`/logs/:id/approve` and applies the returned composite result. -/

/-- Modelled from the spec: the backend handler for `POST /logs/:id/approve`
(spec.md §6 and §8) — the Java backend itself is not under src/. It finds
the pending borrow log with the given id and the referenced item, and, for
a positive request quantity not exceeding the available quantity, returns
the log marked APPROVED together with the item whose available quantity is
decreased by the request's quantity; it never drives the quantity below
zero. -/
def serverApproveBorrowRequest (s : State) (logId : String) :
    Option ApproveBorrowResult :=
  match s.logs.find? (fun l => l.id == logId) with
  | none => none
  | some l =>
      if l.status = LogStatus.PENDING then
        match s.items.find? (fun i => i.id == l.itemId) with
        | none => none
        | some i =>
            if 0 < l.quantity ∧ l.quantity ≤ i.availableQuantity then
              some { updatedLog := { l with status := LogStatus.APPROVED },
                     updatedItem := { i with
                       availableQuantity := i.availableQuantity - l.quantity } }
            else none
      else none

/-! ## Helper lemmas -/

/-- In a user collection with pairwise-distinct identities, the lookup the
guard performs finds exactly the member carrying the looked-up identity. -/
lemma find?_user_eq_of_mem_of_nodup_ids (l : List User) (x : User) (key : String)
    (hnd : (l.map User.id).Nodup) (hx : x ∈ l) (hk : x.id = key) :
    l.find? (fun u => u.id == key) = some x := by
  induction l with
  | nil => cases hx
  | cons a t ih =>
      rw [List.map_cons, List.nodup_cons] at hnd
      rcases List.mem_cons.mp hx with rfl | hxt
      · exact List.find?_cons_of_pos t (by simp [hk])
      · have hne : ¬ (a.id == key) = true := by
          simp only [beq_iff_eq]
          intro h
          apply hnd.1
          rw [h, ← hk]
          exact List.mem_map_of_mem User.id hxt
        rw [List.find?_cons_of_neg t hne]
        exact ih hnd.2 hxt

/-- Replacing every element of a given identity and then looking that
identity up yields the replacement, provided some element carries it. -/
lemma find?_map_replace_item (l : List Item) (u : Item)
    (hx : ∃ x ∈ l, x.id = u.id) :
    (l.map (fun i => if i.id == u.id then u else i)).find? (fun i => i.id == u.id) =
      some u := by
  induction l with
  | nil => rcases hx with ⟨x, hx, _⟩; cases hx
  | cons a t ih =>
      rw [List.map_cons]
      by_cases h : a.id = u.id
      · have hhead : (if (a.id == u.id) = true then u else a) = u := by simp [h]
        rw [hhead]
        exact List.find?_cons_of_pos _ (by simp)
      · have hhead : (if (a.id == u.id) = true then u else a) = a := by simp [h]
        rw [hhead, List.find?_cons_of_neg _ (by simp [h])]
        rcases hx with ⟨x, hxl, hxid⟩
        rcases List.mem_cons.mp hxl with rfl | hxt
        · exact absurd hxid h
        · exact ih ⟨x, hxt, hxid⟩

/-- Looking up position `k` after a replace-by-identity map: the entry is
the replacement exactly when the original entry at `k` carried the replaced
identity, and the original entry unchanged otherwise. -/
lemma getElem?_map_replace {α : Type} (idf : α → String) (l : List α) (u : α)
    (k : Nat) (x : α) (hk : l[k]? = some x) :
    (l.map (fun y => if idf y == idf u then u else y))[k]? =
      some (if idf x == idf u then u else x) := by
  simp [List.getElem?_map, hk]

/-! ## Claim theorems -/

/-- Claim C1: once the application state has finished loading and the
loaded user collection is non-empty, an authenticated guard whose user is
absent from the fresh collection (all identities distinct), or present only
with a non-APPROVED status, transitions to Anonymous with the persisted
session entry cleared. -/
theorem revalidation_forces_logout (a : AuthSnap) (cu : User) (users : List User)
    (hcu : a.currentUser = some cu)
    (hne : users ≠ [])
    (hnd : (users.map User.id).Nodup)
    (hbad : (∀ u ∈ users, u.id ≠ cu.id) ∨
            (∃ fresh ∈ users, fresh.id = cu.id ∧ fresh.status ≠ UserStatus.APPROVED)) :
    revalidateSession a false users =
      { currentUser := none, session := none } := by
  have hlen : 0 < users.length := List.length_pos.mpr hne
  rcases hbad with habs | ⟨fresh, hmem, hid, hstat⟩
  · have hfind : users.find? (fun u => u.id == cu.id) = none := by
      rw [List.find?_eq_none]
      intro u hu
      simp [habs u hu]
    simp [revalidateSession, hcu, hlen, hfind, logoutAuth]
  · have hfind := find?_user_eq_of_mem_of_nodup_ids users fresh cu.id hnd hmem hid
    simp [revalidateSession, hcu, hlen, hfind, hstat, logoutAuth]

/-- Closed instance of the C1 theorem at a concrete guard state and user
collection. -/
theorem revalidation_forces_logout_witness :
    revalidateSession
      { currentUser := some { id := "u1", fullName := "Ada", isAdmin := false,
                              status := UserStatus.APPROVED, password := none },
        session := some { id := "u1", fullName := "Ada", isAdmin := false,
                          status := UserStatus.APPROVED, password := none } }
      false
      [{ id := "u1", fullName := "Ada", isAdmin := false,
         status := UserStatus.DENIED, password := none }] =
      { currentUser := none, session := none } :=
  revalidation_forces_logout _ _ _ rfl (by decide) (by decide)
    (Or.inr ⟨_, List.mem_singleton.mpr rfl, rfl, by decide⟩)

/-- A server-returned login result that still carries the credential field. -/
def userWithCredential : User :=
  { id := "u1", fullName := "Eve", isAdmin := false,
    status := UserStatus.APPROVED, password := some "hunter2" }

/-- Claim C2, counterexample: the login path persists the server-returned
user value verbatim, so when the server response carries the credential
field, the value written to session storage contains it. -/
theorem login_persists_credential_counterexample :
    (loginSuccess userWithCredential
        { currentUser := none, session := none }).session = some userWithCredential ∧
    userWithCredential.password = some "hunter2" := by
  exact ⟨rfl, rfl⟩

/-- Claim C2 as amended: the re-validation re-persist path always strips the
credential before writing (it either leaves the guard state untouched,
clears the session, or writes a credential-free value); logout clears the
entry; the startup restore never writes a new value (it keeps the stored one
or clears); and the login path persists the server-returned value verbatim,
so its write omits the credential exactly when the server-returned user
does. -/
theorem session_writes_strip_credential (a : AuthSnap) (loading : Bool)
    (users : List User) (stored : Option User) (serverUser : User) :
    (revalidateSession a loading users = a ∨
      (revalidateSession a loading users).session = none ∨
      (∃ w, (revalidateSession a loading users).session = some w ∧ w.password = none)) ∧
    (logoutAuth a).session = none ∧
    ((restoreSession stored).session = stored ∨ (restoreSession stored).session = none) ∧
    ((loginSuccess serverUser a).session = some serverUser ∧
      (serverUser.password = none →
        ∀ w, (loginSuccess serverUser a).session = some w → w.password = none)) := by
  refine ⟨?_, rfl, ?_, rfl, ?_⟩
  · cases hcu : a.currentUser with
    | none => exact Or.inl (by simp [revalidateSession, hcu])
    | some cu =>
        by_cases hcond : (!loading && decide (users.length > 0)) = true
        · cases hfind : users.find? (fun u => u.id == cu.id) with
          | none =>
              exact Or.inr (Or.inl
                (by simp [revalidateSession, hcu, hcond, hfind, logoutAuth]))
          | some fresh =>
              by_cases hst : fresh.status = UserStatus.APPROVED
              · exact Or.inr (Or.inr ⟨stripPassword fresh,
                  by simp [revalidateSession, hcu, hcond, hfind, hst], rfl⟩)
              · exact Or.inr (Or.inl
                  (by simp [revalidateSession, hcu, hcond, hfind, hst, logoutAuth]))
        · exact Or.inl (by simp [revalidateSession, hcu, hcond])
  · unfold restoreSession
    cases stored with
    | none => exact Or.inr rfl
    | some u =>
        by_cases hst : u.status = UserStatus.APPROVED
        · exact Or.inl (by simp [hst])
        · exact Or.inr (by simp [hst])
  · intro hpw w hw
    cases hw
    exact hpw

/-- Closed instance of the amended C2 theorem at concrete inputs. -/
theorem session_writes_strip_credential_witness :
    ((revalidateSession { currentUser := none, session := none } false [] =
        { currentUser := none, session := none } ∨
      (revalidateSession { currentUser := none, session := none } false []).session = none ∨
      (∃ w, (revalidateSession { currentUser := none, session := none } false []).session =
          some w ∧ w.password = none)) ∧
    (logoutAuth { currentUser := none, session := none }).session = none ∧
    ((restoreSession none).session = none ∨ (restoreSession none).session = none) ∧
    ((loginSuccess (stripPassword userWithCredential)
        { currentUser := none, session := none }).session =
          some (stripPassword userWithCredential) ∧
      ((stripPassword userWithCredential).password = none →
        ∀ w, (loginSuccess (stripPassword userWithCredential)
            { currentUser := none, session := none }).session = some w →
          w.password = none))) :=
  session_writes_strip_credential
    { currentUser := none, session := none } false [] none
    (stripPassword userWithCredential)

/-- Claim C3: for every mutation and every failing API call, `handleApiCall`
leaves the snapshot exactly as it was, sets the sync status to `error`, and
re-throws the failure to the caller. -/
theorem mutation_failure_keeps_snapshot_and_rethrows
    {α : Type} (e : ApiError)
    (updateState : α → State → State × Except ApiError Unit) (st : Store) :
    (handleApiCall (Except.error e) updateState st).1.state = st.state ∧
    (handleApiCall (Except.error e) updateState st).1.syncStatus = SyncStatus.error ∧
    (handleApiCall (Except.error e) updateState st).2 = Except.error e :=
  ⟨rfl, rfl, rfl⟩

/-- Claim C4: a successful return-item round trip is applied by
`handleApiCall` as one state transition whose result simultaneously carries
the new return log at the front, every pre-existing log with the borrow
log's id replaced by `updatedBorrowLog` and every other log unchanged in
place, every item with `updatedItem`'s id replaced by `updatedItem` and
every other item unchanged in place, and the users, notifications,
suggestions and comments collections unchanged. -/
theorem return_item_patch_atomic (r : ReturnItemResult) (st : Store) :
    handleApiCall (Except.ok r) (pureUpdate returnItemPatch) st =
      ({ state := returnItemPatch r st.state, syncStatus := SyncStatus.synced },
        Except.ok ()) ∧
    (returnItemPatch r st.state).logs.length = st.state.logs.length + 1 ∧
    (returnItemPatch r st.state).logs.head? = some r.returnLog ∧
    (∀ (k : Nat) (l : LogEntry), st.state.logs[k]? = some l →
      (l.id = r.updatedBorrowLog.id →
        (returnItemPatch r st.state).logs[k + 1]? = some r.updatedBorrowLog) ∧
      (l.id ≠ r.updatedBorrowLog.id →
        (returnItemPatch r st.state).logs[k + 1]? = some l)) ∧
    (returnItemPatch r st.state).items.length = st.state.items.length ∧
    (∀ (k : Nat) (i : Item), st.state.items[k]? = some i →
      (i.id = r.updatedItem.id →
        (returnItemPatch r st.state).items[k]? = some r.updatedItem) ∧
      (i.id ≠ r.updatedItem.id →
        (returnItemPatch r st.state).items[k]? = some i)) ∧
    (returnItemPatch r st.state).users = st.state.users ∧
    (returnItemPatch r st.state).notifications = st.state.notifications ∧
    (returnItemPatch r st.state).suggestions = st.state.suggestions ∧
    (returnItemPatch r st.state).comments = st.state.comments := by
  refine ⟨rfl, by simp [returnItemPatch], rfl, ?_, by simp [returnItemPatch],
    ?_, rfl, rfl, rfl, rfl⟩
  · intro k l hk
    constructor
    · intro hid
      simp [returnItemPatch, hk, hid]
    · intro hid
      simp [returnItemPatch, hk, hid]
  · intro k i hk
    constructor
    · intro hid
      simp [returnItemPatch, hk, hid]
    · intro hid
      simp [returnItemPatch, hk, hid]

/-- Closed instance of the C4 theorem at a concrete result and store. -/
theorem return_item_patch_atomic_witness :
    (handleApiCall
        (Except.ok { returnLog := { id := "r1", itemId := "i1", userId := "u1",
                                    action := LogAction.RETURN, quantity := 2,
                                    status := LogStatus.RETURNED },
                     updatedBorrowLog := { id := "b1", itemId := "i1", userId := "u1",
                                           action := LogAction.BORROW, quantity := 2,
                                           status := LogStatus.RETURNED },
                     updatedItem := { id := "i1", name := "Beaker", category := "Glass",
                                      totalQuantity := 5, availableQuantity := 5 } })
        (pureUpdate returnItemPatch)
        { state := { items := [{ id := "i1", name := "Beaker", category := "Glass",
                                 totalQuantity := 5, availableQuantity := 3 }],
                     users := [], logs := [{ id := "b1", itemId := "i1", userId := "u1",
                                             action := LogAction.BORROW, quantity := 2,
                                             status := LogStatus.APPROVED }],
                     notifications := [], suggestions := [], comments := [] },
          syncStatus := SyncStatus.synced }).1.state.logs.head? =
      some { id := "r1", itemId := "i1", userId := "u1",
             action := LogAction.RETURN, quantity := 2,
             status := LogStatus.RETURNED } :=
  ((return_item_patch_atomic _ _).1 ▸ rfl)

/-- Claim C5 (the backend decrement is modelled from the spec, the patch
from the source): when the spec-modelled approve-borrow handler succeeds on
a snapshot, the returned item's available quantity is the referenced item's
previous available quantity minus the pending log's quantity, it is strictly
smaller, it is never negative, and the client patch installs exactly that
item in the resulting snapshot. -/
theorem approve_borrow_decrements_available (s : State) (logId : String)
    (r : ApproveBorrowResult) (l : LogEntry) (i : Item)
    (hr : serverApproveBorrowRequest s logId = some r)
    (hl : s.logs.find? (fun x => x.id == logId) = some l)
    (hi : s.items.find? (fun x => x.id == l.itemId) = some i) :
    r.updatedItem.availableQuantity = i.availableQuantity - l.quantity ∧
    r.updatedItem.availableQuantity < i.availableQuantity ∧
    0 ≤ r.updatedItem.availableQuantity ∧
    (approveBorrowRequestPatch r s).items.find?
        (fun x => x.id == r.updatedItem.id) = some r.updatedItem := by
  unfold serverApproveBorrowRequest at hr
  simp only [hl] at hr
  by_cases hst : l.status = LogStatus.PENDING
  · simp only [if_pos hst, hi] at hr
    by_cases hq : 0 < l.quantity ∧ l.quantity ≤ i.availableQuantity
    · rw [if_pos hq] at hr
      obtain ⟨hq1, hq2⟩ := hq
      cases hr
      have hmem : i ∈ s.items := List.mem_of_find?_eq_some hi
      refine ⟨rfl, by simp; omega, by simp; omega, ?_⟩
      unfold approveBorrowRequestPatch
      exact find?_map_replace_item s.items _ ⟨i, hmem, rfl⟩
    · rw [if_neg hq] at hr
      cases hr
  · rw [if_neg hst] at hr
    cases hr

/-- Closed instance of the C5 theorem on a one-item, one-log snapshot. -/
theorem approve_borrow_decrements_available_witness :
    ({ updatedLog := { id := "b1", itemId := "i1", userId := "u1",
                       action := LogAction.BORROW, quantity := 2,
                       status := LogStatus.APPROVED },
       updatedItem := { id := "i1", name := "Beaker", category := "Glass",
                        totalQuantity := 5,
                        availableQuantity := 3 } : ApproveBorrowResult}).updatedItem.availableQuantity =
        (5 : Int) - 2 ∧
    (3 : Int) < 5 ∧ (0 : Int) ≤ 3 ∧
    (approveBorrowRequestPatch
        { updatedLog := { id := "b1", itemId := "i1", userId := "u1",
                          action := LogAction.BORROW, quantity := 2,
                          status := LogStatus.APPROVED },
          updatedItem := { id := "i1", name := "Beaker", category := "Glass",
                           totalQuantity := 5, availableQuantity := 3 } }
        { items := [{ id := "i1", name := "Beaker", category := "Glass",
                      totalQuantity := 5, availableQuantity := 5 }],
          users := [],
          logs := [{ id := "b1", itemId := "i1", userId := "u1",
                     action := LogAction.BORROW, quantity := 2,
                     status := LogStatus.PENDING }],
          notifications := [], suggestions := [], comments := [] }).items.find?
        (fun x => x.id == "i1") =
      some { id := "i1", name := "Beaker", category := "Glass",
             totalQuantity := 5, availableQuantity := 3 } := by
  have h := approve_borrow_decrements_available
    { items := [{ id := "i1", name := "Beaker", category := "Glass",
                  totalQuantity := 5, availableQuantity := 5 }],
      users := [],
      logs := [{ id := "b1", itemId := "i1", userId := "u1",
                 action := LogAction.BORROW, quantity := 2,
                 status := LogStatus.PENDING }],
      notifications := [], suggestions := [], comments := [] }
    "b1"
    { updatedLog := { id := "b1", itemId := "i1", userId := "u1",
                      action := LogAction.BORROW, quantity := 2,
                      status := LogStatus.APPROVED },
      updatedItem := { id := "i1", name := "Beaker", category := "Glass",
                       totalQuantity := 5, availableQuantity := 3 } }
    { id := "b1", itemId := "i1", userId := "u1",
      action := LogAction.BORROW, quantity := 2, status := LogStatus.PENDING }
    { id := "i1", name := "Beaker", category := "Glass",
      totalQuantity := 5, availableQuantity := 5 }
    (by decide) (by decide) (by decide)
  exact ⟨h.1, h.2.1, h.2.2.1, h.2.2.2⟩

/-- Claim C6: the delete patches (items and users) are by-identity filters —
when no entity carries the deleted identity the collection is left exactly
as it was (and nothing fails, the patch being a total function), and in
general an entity survives the patch exactly when it was present before and
does not carry the deleted identity, the survivors keeping their relative
order; all other collections are untouched. -/
theorem delete_patch_removes_exactly_matches (s : State) (did : String) :
    ((∀ i ∈ s.items, i.id ≠ did) → deleteItemPatch did s = s) ∧
    (∀ i, i ∈ (deleteItemPatch did s).items ↔ i ∈ s.items ∧ i.id ≠ did) ∧
    List.Sublist (deleteItemPatch did s).items s.items ∧
    (deleteItemPatch did s).users = s.users ∧
    (deleteItemPatch did s).logs = s.logs ∧
    (deleteItemPatch did s).notifications = s.notifications ∧
    ((∀ u ∈ s.users, u.id ≠ did) → deleteUserPatch did s = s) ∧
    (∀ u, u ∈ (deleteUserPatch did s).users ↔ u ∈ s.users ∧ u.id ≠ did) ∧
    List.Sublist (deleteUserPatch did s).users s.users ∧
    (deleteUserPatch did s).items = s.items ∧
    (deleteUserPatch did s).logs = s.logs ∧
    (deleteUserPatch did s).comments = s.comments := by
  refine ⟨?_, ?_, List.filter_sublist s.items, rfl, rfl, rfl,
    ?_, ?_, List.filter_sublist s.users, rfl, rfl, rfl⟩
  · intro h
    unfold deleteItemPatch
    have : s.items.filter (fun i => !(i.id == did)) = s.items := by
      rw [List.filter_eq_self]
      intro i hi
      simp [h i hi]
    rw [this]
  · intro i
    simp [deleteItemPatch, List.mem_filter]
  · intro h
    unfold deleteUserPatch
    have : s.users.filter (fun u => !(u.id == did)) = s.users := by
      rw [List.filter_eq_self]
      intro u hu
      simp [h u hu]
    rw [this]
  · intro u
    simp [deleteUserPatch, List.mem_filter]

/-- Closed instance of the C6 theorem: deleting the absent identity `ghost`
from a one-item snapshot leaves it unchanged. -/
theorem delete_patch_removes_exactly_matches_witness :
    deleteItemPatch "ghost"
        { items := [{ id := "i1", name := "Beaker", category := "Glass",
                      totalQuantity := 5, availableQuantity := 5 }],
          users := [], logs := [], notifications := [], suggestions := [],
          comments := [] } =
      { items := [{ id := "i1", name := "Beaker", category := "Glass",
                    totalQuantity := 5, availableQuantity := 5 }],
        users := [], logs := [], notifications := [], suggestions := [],
        comments := [] } :=
  (delete_patch_removes_exactly_matches _ "ghost").1 (by decide)

/-- The first concrete non-success response refuting claim C7: status 500
with the body `{}` — parseable JSON carrying neither a `message` nor an
`error` property. -/
def responseNoFields : HttpErrorResponse :=
  { status := 500, jsonBody := some { message := none, error := none }, text := "{}" }

/-- The second concrete non-success response refuting claim C7: status 502
with a non-JSON body. -/
def responseNonJson : HttpErrorResponse :=
  { status := 502, jsonBody := none, text := "Bad Gateway" }

/-- Claim C7, counterexample: on a 500 response whose body is the parseable
JSON object `{}`, the client fails with the fixed text
`An unknown server error occurred.` — a message neither extracted from the
JSON body, nor the raw text, nor containing the HTTP status; and on a 502
response whose body is not parseable JSON, the client fails with the
re-thrown body-already-read error and never with the raw response text the
claim asserts. -/
theorem api_error_message_counterexample :
    apiFetchFailureOf responseNoFields =
      ApiFetchFailure.requestFailed "An unknown server error occurred." ∧
    ¬ claimedErrorMessage responseNoFields (apiFetchFailureOf responseNoFields) ∧
    apiFetchFailureOf responseNonJson = ApiFetchFailure.bodyAlreadyRead ∧
    ¬ claimedErrorMessage responseNonJson (apiFetchFailureOf responseNonJson) := by
  refine ⟨rfl, ?_, rfl, ?_⟩
  · rintro ⟨msg, hf, hspec⟩
    rcases hspec with hs | hs <;> exact Option.noConfusion hs
  · rintro ⟨msg, hf, -⟩
    exact ApiFetchFailure.noConfusion hf

/-- Claim C7 as amended: on a non-success response whose body parses as
JSON, the client fails with the body's non-empty `message` property, else
its non-empty `error` property, else the fixed text
`An unknown server error occurred.`; on a body that is not parseable JSON
the parse attempt has already consumed the body stream, so the client fails
with the re-thrown body-already-read error — the raw-text and HTTP-status
fallbacks are unreachable. -/
theorem api_error_message_amended (resp : HttpErrorResponse) :
    amendedErrorOutcome resp (apiFetchFailureOf resp) := by
  unfold amendedErrorOutcome apiFetchFailureOf
  cases hj : resp.jsonBody with
  | some errorData =>
      refine ⟨jsOrElse errorData.message
        (jsOrElse errorData.error "An unknown server error occurred."), rfl, ?_⟩
      cases hm : errorData.message with
      | some m =>
          by_cases hme : m = ""
          · cases he : errorData.error with
            | some e =>
                by_cases hee : e = ""
                · refine Or.inr (Or.inr ⟨?_, ?_, ?_⟩)
                  · intro x hx
                    injection hx with hmx
                    exact hmx ▸ hme
                  · intro x hx
                    injection hx with hex
                    exact hex ▸ hee
                  · simp [jsOrElse, hme, hee]
                · refine Or.inr (Or.inl ⟨?_, ?_, ?_⟩)
                  · intro x hx
                    injection hx with hmx
                    exact hmx ▸ hme
                  · simp [jsOrElse, hme, hee]
                  · simp [jsOrElse, hme, hee]
            | none =>
                refine Or.inr (Or.inr ⟨?_, ?_, ?_⟩)
                · intro x hx
                  injection hx with hmx
                  exact hmx ▸ hme
                · intro x hx
                  cases hx
                · simp [jsOrElse, hme]
          · exact Or.inl ⟨by simp [jsOrElse, hme], by simp [jsOrElse, hme]⟩
      | none =>
          cases he : errorData.error with
          | some e =>
              by_cases hee : e = ""
              · refine Or.inr (Or.inr ⟨?_, ?_, ?_⟩)
                · intro x hx
                  cases hx
                · intro x hx
                  injection hx with hex
                  exact hex ▸ hee
                · simp [jsOrElse, hee]
              · refine Or.inr (Or.inl ⟨?_, ?_, ?_⟩)
                · intro x hx
                  cases hx
                · simp [jsOrElse, hee]
                · simp [jsOrElse, hee]
          | none =>
              refine Or.inr (Or.inr ⟨?_, ?_, ?_⟩)
              · intro x hx
                cases hx
              · intro x hx
                cases hx
              · simp [jsOrElse]
  | none => rfl

/-- Claim C8: `markNotificationsAsRead` issues no HTTP request and always
resolves with exactly the input identity list; applying its patch through
`handleApiCall` installs, in one transition, a notifications collection of
the same length in which position `k` carries the original notification
with `read := true` when its identity is in the input list and the original
notification unchanged otherwise, while the items, users, logs, suggestions
and comments collections are untouched. -/
theorem mark_notifications_read_stub (ids : List String) (st : Store) :
    (markNotificationsAsReadApi ids).requests = [] ∧
    (markNotificationsAsReadApi ids).result = Except.ok ids ∧
    handleApiCall (markNotificationsAsReadApi ids).result
        (pureUpdate markNotificationsAsReadPatch) st =
      ({ state := markNotificationsAsReadPatch ids st.state,
         syncStatus := SyncStatus.synced }, Except.ok ()) ∧
    (markNotificationsAsReadPatch ids st.state).notifications.length =
      st.state.notifications.length ∧
    (∀ (k : Nat) (n : Notification), st.state.notifications[k]? = some n →
      (n.id ∈ ids →
        (markNotificationsAsReadPatch ids st.state).notifications[k]? =
          some { n with read := true }) ∧
      (n.id ∉ ids →
        (markNotificationsAsReadPatch ids st.state).notifications[k]? = some n)) ∧
    (markNotificationsAsReadPatch ids st.state).items = st.state.items ∧
    (markNotificationsAsReadPatch ids st.state).users = st.state.users ∧
    (markNotificationsAsReadPatch ids st.state).logs = st.state.logs ∧
    (markNotificationsAsReadPatch ids st.state).suggestions = st.state.suggestions ∧
    (markNotificationsAsReadPatch ids st.state).comments = st.state.comments := by
  refine ⟨rfl, rfl, rfl, by simp [markNotificationsAsReadPatch], ?_,
    rfl, rfl, rfl, rfl, rfl⟩
  intro k n hk
  constructor
  · intro hin
    simp [markNotificationsAsReadPatch, hk, List.contains, List.elem_eq_mem, hin]
  · intro hout
    simp [markNotificationsAsReadPatch, hk, List.contains, List.elem_eq_mem, hout]

/-- Closed instance of the C8 theorem on a two-notification snapshot. -/
theorem mark_notifications_read_stub_witness :
    markNotificationsAsReadPatch ["n1"]
        { items := [], users := [], logs := [],
          notifications := [{ id := "n1", ntype := "new_borrow_request", read := false },
                            { id := "n2", ntype := "return_request", read := false }],
          suggestions := [], comments := [] } =
      { items := [], users := [], logs := [],
        notifications := [{ id := "n1", ntype := "new_borrow_request", read := true },
                          { id := "n2", ntype := "return_request", read := false }],
        suggestions := [], comments := [] } := by
  have h := mark_notifications_read_stub ["n1"]
    { state := { items := [], users := [], logs := [],
                 notifications := [{ id := "n1", ntype := "new_borrow_request", read := false },
                                   { id := "n2", ntype := "return_request", read := false }],
                 suggestions := [], comments := [] },
      syncStatus := SyncStatus.synced }
  have h1 := (h.2.2.2.2.1 0 { id := "n1", ntype := "new_borrow_request", read := false }
    rfl).1 (by decide)
  have h2 := (h.2.2.2.2.1 1 { id := "n2", ntype := "return_request", read := false }
    rfl).2 (by decide)
  decide

/-- The admin already present when the C9 failing input runs. -/
def adminUser : User :=
  { id := "a1", fullName := "Root", isAdmin := true,
    status := UserStatus.APPROVED, password := none }

/-- The server-confirmed create-user result of the C9 failing input. -/
def createUserResultEx : CreateUserResult :=
  { newUser := { id := "u9", fullName := "New Member", isAdmin := false,
                 status := UserStatus.PENDING, password := none },
    newNotification := { id := "n9", ntype := "new_user", read := false } }

/-- The store the C9 failing input starts from. -/
def storeEx : Store :=
  { state := { items := [], users := [adminUser], logs := [], notifications := [],
               suggestions := [], comments := [] },
    syncStatus := SyncStatus.synced }

/-- A notification dispatch that throws. -/
def throwingUserListDispatch : User → List User → Except ApiError Unit :=
  fun _ _ => Except.error { message := "email dispatch failed" }

/-- A single-recipient notification dispatch that throws. -/
def throwingUserDispatch : User → Except ApiError Unit :=
  fun _ => Except.error { message := "email dispatch failed" }

/-- Claim C9, code versus claim at the failing input: the dispatch call
sites sit unguarded inside the mutation path, so a throwing dispatch makes
`createUser` drop its entire patch (the new user and notification never
enter the snapshot) and report failure, and makes `approveUser` report
failure even though its patch was already applied — in both cases the
mutation does not report success, contradicting the spec's requirement that
a dispatch failure never fail or roll back the mutation. -/
theorem dispatch_throw_breaks_mutation_exhibit :
    handleApiCall (Except.ok createUserResultEx)
        (createUserUpdate throwingUserListDispatch) storeEx =
      ({ state := storeEx.state, syncStatus := SyncStatus.error },
        Except.error { message := "email dispatch failed" }) ∧
    createUserResultEx.newUser ∉
      (handleApiCall (Except.ok createUserResultEx)
        (createUserUpdate throwingUserListDispatch) storeEx).1.state.users ∧
    createUserResultEx.newNotification ∉
      (handleApiCall (Except.ok createUserResultEx)
        (createUserUpdate throwingUserListDispatch) storeEx).1.state.notifications ∧
    (handleApiCall (Except.ok adminUser)
        (approveUserUpdate throwingUserDispatch) storeEx).2 =
      Except.error { message := "email dispatch failed" } ∧
    (handleApiCall (Except.ok adminUser)
        (approveUserUpdate throwingUserDispatch) storeEx).1.syncStatus =
      SyncStatus.error := by
  refine ⟨rfl, ?_, ?_, rfl, rfl⟩
  · decide
  · decide

/-- The dispatch behaviour on the success path: it does not throw. -/
def okUserListDispatch : User → List User → Except ApiError Unit :=
  fun _ _ => Except.ok ()

/-- A single-recipient dispatch behaviour on the success path: it does not
throw. -/
def okUserDispatch : User → Except ApiError Unit :=
  fun _ => Except.ok ()

/-- Claim C10, covering every mutation patch of the store: the insert
patches keep every pre-existing entry in place and put the newly created
entities at fixed deterministic positions — new items and users at the end
(`addItem`, `importItems`, `createUser`, `approveItemSuggestion`), new
logs, notifications, suggestions and comments at the front
(`requestBorrowItem`, `returnItem`, `requestItemReturn`, `createUser`,
`addSuggestion`, `denySuggestion`, `addComment`); the replace-by-id patches
(`editItem`, `editUser`, `approveUser`, `denyUser`, `denyBorrowRequest`,
`approveBorrowRequest`, `returnItem`, `requestItemReturn`,
`approveItemSuggestion`, `approveFeatureSuggestion`, `denySuggestion`,
`markNotificationsAsRead`) keep length and positions, each slot holding the
original entry unless it carried the replaced identity; and the delete
patches keep the survivors in their relative order — with every collection
a patch does not target left unchanged. -/
theorem mutation_patches_insert_at_fixed_positions (s : State) (newItem : Item)
    (rb : RequestBorrowResult) (c : Comment) (rc : CreateUserResult)
    (updatedItem : Item) (updatedUser : User) (approvedUser : User)
    (deniedUser : User) (updatedLog : LogEntry) (ra : ApproveBorrowResult)
    (rr : ReturnItemResult) (rq : RequestItemReturnResult)
    (readIds : List String) (newSuggestion : Suggestion)
    (ras : ApproveItemSuggestionResult) (updatedSuggestion : Suggestion)
    (rds : DenySuggestionResult) (newItems : List Item) (did : String) :
    ((addItemPatch newItem s).items.dropLast = s.items ∧
      (addItemPatch newItem s).items.getLast? = some newItem ∧
      (addItemPatch newItem s).users = s.users ∧
      (addItemPatch newItem s).logs = s.logs ∧
      (addItemPatch newItem s).notifications = s.notifications ∧
      (addItemPatch newItem s).suggestions = s.suggestions ∧
      (addItemPatch newItem s).comments = s.comments) ∧
    ((requestBorrowItemPatch rb s).logs.head? = some rb.newLog ∧
      (requestBorrowItemPatch rb s).logs.tail = s.logs ∧
      (requestBorrowItemPatch rb s).notifications.head? = some rb.newNotification ∧
      (requestBorrowItemPatch rb s).notifications.tail = s.notifications ∧
      (requestBorrowItemPatch rb s).items = s.items ∧
      (requestBorrowItemPatch rb s).users = s.users ∧
      (requestBorrowItemPatch rb s).suggestions = s.suggestions ∧
      (requestBorrowItemPatch rb s).comments = s.comments) ∧
    ((addCommentPatch c s).comments.head? = some c ∧
      (addCommentPatch c s).comments.tail = s.comments ∧
      (addCommentPatch c s).items = s.items ∧
      (addCommentPatch c s).users = s.users ∧
      (addCommentPatch c s).logs = s.logs ∧
      (addCommentPatch c s).notifications = s.notifications ∧
      (addCommentPatch c s).suggestions = s.suggestions) ∧
    ((createUserUpdate okUserListDispatch rc s).2 = Except.ok () ∧
      (createUserUpdate okUserListDispatch rc s).1.users.dropLast = s.users ∧
      (createUserUpdate okUserListDispatch rc s).1.users.getLast? = some rc.newUser ∧
      (createUserUpdate okUserListDispatch rc s).1.notifications.head? =
        some rc.newNotification ∧
      (createUserUpdate okUserListDispatch rc s).1.notifications.tail =
        s.notifications ∧
      (createUserUpdate okUserListDispatch rc s).1.items = s.items ∧
      (createUserUpdate okUserListDispatch rc s).1.logs = s.logs ∧
      (createUserUpdate okUserListDispatch rc s).1.suggestions = s.suggestions ∧
      (createUserUpdate okUserListDispatch rc s).1.comments = s.comments) ∧
    ((addSuggestionPatch newSuggestion s).suggestions.head? = some newSuggestion ∧
      (addSuggestionPatch newSuggestion s).suggestions.tail = s.suggestions ∧
      (addSuggestionPatch newSuggestion s).items = s.items ∧
      (addSuggestionPatch newSuggestion s).users = s.users ∧
      (addSuggestionPatch newSuggestion s).logs = s.logs ∧
      (addSuggestionPatch newSuggestion s).notifications = s.notifications ∧
      (addSuggestionPatch newSuggestion s).comments = s.comments) ∧
    ((importItemsPatch newItems s).items.take s.items.length = s.items ∧
      (importItemsPatch newItems s).items.drop s.items.length = newItems ∧
      (importItemsPatch newItems s).users = s.users ∧
      (importItemsPatch newItems s).logs = s.logs ∧
      (importItemsPatch newItems s).notifications = s.notifications ∧
      (importItemsPatch newItems s).suggestions = s.suggestions ∧
      (importItemsPatch newItems s).comments = s.comments) ∧
    ((editItemPatch updatedItem s).items.length = s.items.length ∧
      (∀ (k : Nat) (x : Item), s.items[k]? = some x →
        (editItemPatch updatedItem s).items[k]? =
          some (if x.id == updatedItem.id then updatedItem else x)) ∧
      (editItemPatch updatedItem s).users = s.users ∧
      (editItemPatch updatedItem s).logs = s.logs ∧
      (editItemPatch updatedItem s).notifications = s.notifications ∧
      (editItemPatch updatedItem s).suggestions = s.suggestions ∧
      (editItemPatch updatedItem s).comments = s.comments) ∧
    ((editUserPatch updatedUser s).users.length = s.users.length ∧
      (∀ (k : Nat) (x : User), s.users[k]? = some x →
        (editUserPatch updatedUser s).users[k]? =
          some (if x.id == updatedUser.id then updatedUser else x)) ∧
      (editUserPatch updatedUser s).items = s.items ∧
      (editUserPatch updatedUser s).logs = s.logs ∧
      (editUserPatch updatedUser s).notifications = s.notifications ∧
      (editUserPatch updatedUser s).suggestions = s.suggestions ∧
      (editUserPatch updatedUser s).comments = s.comments) ∧
    ((approveUserUpdate okUserDispatch approvedUser s).2 = Except.ok () ∧
      (approveUserUpdate okUserDispatch approvedUser s).1.users.length =
        s.users.length ∧
      (∀ (k : Nat) (x : User), s.users[k]? = some x →
        (approveUserUpdate okUserDispatch approvedUser s).1.users[k]? =
          some (if x.id == approvedUser.id then approvedUser else x)) ∧
      (approveUserUpdate okUserDispatch approvedUser s).1.items = s.items ∧
      (approveUserUpdate okUserDispatch approvedUser s).1.logs = s.logs ∧
      (approveUserUpdate okUserDispatch approvedUser s).1.notifications =
        s.notifications ∧
      (approveUserUpdate okUserDispatch approvedUser s).1.suggestions =
        s.suggestions ∧
      (approveUserUpdate okUserDispatch approvedUser s).1.comments = s.comments) ∧
    ((denyUserUpdate okUserDispatch deniedUser s).2 = Except.ok () ∧
      (denyUserUpdate okUserDispatch deniedUser s).1.users.length =
        s.users.length ∧
      (∀ (k : Nat) (x : User), s.users[k]? = some x →
        (denyUserUpdate okUserDispatch deniedUser s).1.users[k]? =
          some (if x.id == deniedUser.id then deniedUser else x)) ∧
      (denyUserUpdate okUserDispatch deniedUser s).1.items = s.items ∧
      (denyUserUpdate okUserDispatch deniedUser s).1.logs = s.logs ∧
      (denyUserUpdate okUserDispatch deniedUser s).1.notifications =
        s.notifications ∧
      (denyUserUpdate okUserDispatch deniedUser s).1.suggestions = s.suggestions ∧
      (denyUserUpdate okUserDispatch deniedUser s).1.comments = s.comments) ∧
    ((denyBorrowRequestPatch updatedLog s).logs.length = s.logs.length ∧
      (∀ (k : Nat) (x : LogEntry), s.logs[k]? = some x →
        (denyBorrowRequestPatch updatedLog s).logs[k]? =
          some (if x.id == updatedLog.id then updatedLog else x)) ∧
      (denyBorrowRequestPatch updatedLog s).items = s.items ∧
      (denyBorrowRequestPatch updatedLog s).users = s.users ∧
      (denyBorrowRequestPatch updatedLog s).notifications = s.notifications ∧
      (denyBorrowRequestPatch updatedLog s).suggestions = s.suggestions ∧
      (denyBorrowRequestPatch updatedLog s).comments = s.comments) ∧
    ((approveBorrowRequestPatch ra s).logs.length = s.logs.length ∧
      (∀ (k : Nat) (x : LogEntry), s.logs[k]? = some x →
        (approveBorrowRequestPatch ra s).logs[k]? =
          some (if x.id == ra.updatedLog.id then ra.updatedLog else x)) ∧
      (approveBorrowRequestPatch ra s).items.length = s.items.length ∧
      (∀ (k : Nat) (x : Item), s.items[k]? = some x →
        (approveBorrowRequestPatch ra s).items[k]? =
          some (if x.id == ra.updatedItem.id then ra.updatedItem else x)) ∧
      (approveBorrowRequestPatch ra s).users = s.users ∧
      (approveBorrowRequestPatch ra s).notifications = s.notifications ∧
      (approveBorrowRequestPatch ra s).suggestions = s.suggestions ∧
      (approveBorrowRequestPatch ra s).comments = s.comments) ∧
    ((returnItemPatch rr s).logs.length = s.logs.length + 1 ∧
      (returnItemPatch rr s).logs.head? = some rr.returnLog ∧
      (∀ (k : Nat) (x : LogEntry), s.logs[k]? = some x →
        (returnItemPatch rr s).logs[k + 1]? =
          some (if x.id == rr.updatedBorrowLog.id then rr.updatedBorrowLog else x)) ∧
      (returnItemPatch rr s).items.length = s.items.length ∧
      (∀ (k : Nat) (x : Item), s.items[k]? = some x →
        (returnItemPatch rr s).items[k]? =
          some (if x.id == rr.updatedItem.id then rr.updatedItem else x)) ∧
      (returnItemPatch rr s).users = s.users ∧
      (returnItemPatch rr s).notifications = s.notifications ∧
      (returnItemPatch rr s).suggestions = s.suggestions ∧
      (returnItemPatch rr s).comments = s.comments) ∧
    ((requestItemReturnPatch rq s).logs.length = s.logs.length ∧
      (∀ (k : Nat) (x : LogEntry), s.logs[k]? = some x →
        (requestItemReturnPatch rq s).logs[k]? =
          some (if x.id == rq.updatedLog.id then rq.updatedLog else x)) ∧
      (requestItemReturnPatch rq s).notifications.head? =
        some rq.newNotification ∧
      (requestItemReturnPatch rq s).notifications.tail = s.notifications ∧
      (requestItemReturnPatch rq s).items = s.items ∧
      (requestItemReturnPatch rq s).users = s.users ∧
      (requestItemReturnPatch rq s).suggestions = s.suggestions ∧
      (requestItemReturnPatch rq s).comments = s.comments) ∧
    ((markNotificationsAsReadPatch readIds s).notifications.length =
        s.notifications.length ∧
      (∀ (k : Nat) (n : Notification), s.notifications[k]? = some n →
        (markNotificationsAsReadPatch readIds s).notifications[k]? = some n ∨
        (markNotificationsAsReadPatch readIds s).notifications[k]? =
          some { n with read := true }) ∧
      (markNotificationsAsReadPatch readIds s).items = s.items ∧
      (markNotificationsAsReadPatch readIds s).users = s.users ∧
      (markNotificationsAsReadPatch readIds s).logs = s.logs ∧
      (markNotificationsAsReadPatch readIds s).suggestions = s.suggestions ∧
      (markNotificationsAsReadPatch readIds s).comments = s.comments) ∧
    ((approveItemSuggestionPatch ras s).suggestions.length =
        s.suggestions.length ∧
      (∀ (k : Nat) (x : Suggestion), s.suggestions[k]? = some x →
        (approveItemSuggestionPatch ras s).suggestions[k]? =
          some (if x.id == ras.updatedSuggestion.id then ras.updatedSuggestion
                else x)) ∧
      (approveItemSuggestionPatch ras s).items.dropLast = s.items ∧
      (approveItemSuggestionPatch ras s).items.getLast? = some ras.newItem ∧
      (approveItemSuggestionPatch ras s).users = s.users ∧
      (approveItemSuggestionPatch ras s).logs = s.logs ∧
      (approveItemSuggestionPatch ras s).notifications = s.notifications ∧
      (approveItemSuggestionPatch ras s).comments = s.comments) ∧
    ((approveFeatureSuggestionPatch updatedSuggestion s).suggestions.length =
        s.suggestions.length ∧
      (∀ (k : Nat) (x : Suggestion), s.suggestions[k]? = some x →
        (approveFeatureSuggestionPatch updatedSuggestion s).suggestions[k]? =
          some (if x.id == updatedSuggestion.id then updatedSuggestion else x)) ∧
      (approveFeatureSuggestionPatch updatedSuggestion s).items = s.items ∧
      (approveFeatureSuggestionPatch updatedSuggestion s).users = s.users ∧
      (approveFeatureSuggestionPatch updatedSuggestion s).logs = s.logs ∧
      (approveFeatureSuggestionPatch updatedSuggestion s).notifications =
        s.notifications ∧
      (approveFeatureSuggestionPatch updatedSuggestion s).comments =
        s.comments) ∧
    ((denySuggestionPatch rds s).suggestions.length = s.suggestions.length ∧
      (∀ (k : Nat) (x : Suggestion), s.suggestions[k]? = some x →
        (denySuggestionPatch rds s).suggestions[k]? =
          some (if x.id == rds.updatedSuggestion.id then rds.updatedSuggestion
                else x)) ∧
      (denySuggestionPatch rds s).comments.head? = some rds.newComment ∧
      (denySuggestionPatch rds s).comments.tail = s.comments ∧
      (denySuggestionPatch rds s).items = s.items ∧
      (denySuggestionPatch rds s).users = s.users ∧
      (denySuggestionPatch rds s).logs = s.logs ∧
      (denySuggestionPatch rds s).notifications = s.notifications) ∧
    (List.Sublist (deleteItemPatch did s).items s.items ∧
      (deleteItemPatch did s).users = s.users ∧
      (deleteItemPatch did s).logs = s.logs ∧
      (deleteItemPatch did s).notifications = s.notifications ∧
      (deleteItemPatch did s).suggestions = s.suggestions ∧
      (deleteItemPatch did s).comments = s.comments) ∧
    (List.Sublist (deleteUserPatch did s).users s.users ∧
      (deleteUserPatch did s).items = s.items ∧
      (deleteUserPatch did s).logs = s.logs ∧
      (deleteUserPatch did s).notifications = s.notifications ∧
      (deleteUserPatch did s).suggestions = s.suggestions ∧
      (deleteUserPatch did s).comments = s.comments) := by
  refine ⟨⟨by simp [addItemPatch], by simp [addItemPatch, List.getLast?_concat],
      rfl, rfl, rfl, rfl, rfl⟩,
    ⟨rfl, rfl, rfl, rfl, rfl, rfl, rfl, rfl⟩,
    ⟨rfl, rfl, rfl, rfl, rfl, rfl, rfl⟩,
    ⟨rfl, by simp [createUserUpdate, okUserListDispatch],
      by simp [createUserUpdate, okUserListDispatch, List.getLast?_concat],
      rfl, rfl, rfl, rfl, rfl, rfl⟩,
    ⟨rfl, rfl, rfl, rfl, rfl, rfl, rfl⟩,
    ⟨List.take_left s.items newItems, List.drop_left s.items newItems,
      rfl, rfl, rfl, rfl, rfl⟩,
    ⟨by simp [editItemPatch],
      fun k x hk => getElem?_map_replace Item.id s.items updatedItem k x hk,
      rfl, rfl, rfl, rfl, rfl⟩,
    ⟨by simp [editUserPatch],
      fun k x hk => getElem?_map_replace User.id s.users updatedUser k x hk,
      rfl, rfl, rfl, rfl, rfl⟩,
    ⟨rfl, by simp [approveUserUpdate],
      fun k x hk => getElem?_map_replace User.id s.users approvedUser k x hk,
      rfl, rfl, rfl, rfl, rfl⟩,
    ⟨rfl, by simp [denyUserUpdate],
      fun k x hk => getElem?_map_replace User.id s.users deniedUser k x hk,
      rfl, rfl, rfl, rfl, rfl⟩,
    ⟨by simp [denyBorrowRequestPatch],
      fun k x hk => getElem?_map_replace LogEntry.id s.logs updatedLog k x hk,
      rfl, rfl, rfl, rfl, rfl⟩,
    ⟨by simp [approveBorrowRequestPatch],
      fun k x hk => getElem?_map_replace LogEntry.id s.logs ra.updatedLog k x hk,
      by simp [approveBorrowRequestPatch],
      fun k x hk => getElem?_map_replace Item.id s.items ra.updatedItem k x hk,
      rfl, rfl, rfl, rfl⟩,
    ⟨by simp [returnItemPatch], rfl,
      fun k x hk => by
        simpa [returnItemPatch] using
          getElem?_map_replace LogEntry.id s.logs rr.updatedBorrowLog k x hk,
      by simp [returnItemPatch],
      fun k x hk => getElem?_map_replace Item.id s.items rr.updatedItem k x hk,
      rfl, rfl, rfl, rfl⟩,
    ⟨by simp [requestItemReturnPatch],
      fun k x hk => getElem?_map_replace LogEntry.id s.logs rq.updatedLog k x hk,
      rfl, rfl, rfl, rfl, rfl, rfl⟩,
    ⟨by simp [markNotificationsAsReadPatch], ?_, rfl, rfl, rfl, rfl, rfl⟩,
    ⟨by simp [approveItemSuggestionPatch],
      fun k x hk =>
        getElem?_map_replace Suggestion.id s.suggestions ras.updatedSuggestion k x hk,
      by simp [approveItemSuggestionPatch],
      by simp [approveItemSuggestionPatch, List.getLast?_concat],
      rfl, rfl, rfl, rfl⟩,
    ⟨by simp [approveFeatureSuggestionPatch],
      fun k x hk =>
        getElem?_map_replace Suggestion.id s.suggestions updatedSuggestion k x hk,
      rfl, rfl, rfl, rfl, rfl⟩,
    ⟨by simp [denySuggestionPatch],
      fun k x hk =>
        getElem?_map_replace Suggestion.id s.suggestions rds.updatedSuggestion k x hk,
      rfl, rfl, rfl, rfl, rfl, rfl⟩,
    ⟨List.filter_sublist s.items, rfl, rfl, rfl, rfl, rfl⟩,
    ⟨List.filter_sublist s.users, rfl, rfl, rfl, rfl, rfl⟩⟩
  intro k n hk
  by_cases hc : n.id ∈ readIds
  · exact Or.inr (by simp [markNotificationsAsReadPatch, List.getElem?_map, hk, hc])
  · exact Or.inl (by simp [markNotificationsAsReadPatch, List.getElem?_map, hk, hc])

/-- Closed instance of the C3 theorem at a concrete error and store. -/
theorem mutation_failure_keeps_snapshot_and_rethrows_witness :
    (handleApiCall (Except.error { message := "HTTP Error: 500" })
        (pureUpdate addItemPatch) storeEx).1.state = storeEx.state ∧
    (handleApiCall (Except.error { message := "HTTP Error: 500" })
        (pureUpdate addItemPatch) storeEx).1.syncStatus = SyncStatus.error ∧
    (handleApiCall (Except.error { message := "HTTP Error: 500" })
        (pureUpdate addItemPatch) storeEx).2 =
      Except.error { message := "HTTP Error: 500" } :=
  mutation_failure_keeps_snapshot_and_rethrows
    { message := "HTTP Error: 500" } (pureUpdate addItemPatch) storeEx

/-- Closed instance of the amended C7 theorem at the 502 response with a
non-JSON body. -/
theorem api_error_message_amended_witness :
    amendedErrorOutcome responseNonJson (apiFetchFailureOf responseNonJson) :=
  api_error_message_amended responseNonJson

/-- Closed instance of the C10 theorem: adding an item to an empty snapshot
appends it. -/
theorem mutation_patches_insert_at_fixed_positions_witness :
    (addItemPatch
        { id := "i1", name := "Beaker", category := "Glass",
          totalQuantity := 50, availableQuantity := 50 }
        { items := [], users := [], logs := [], notifications := [],
          suggestions := [], comments := [] }).items.getLast? =
      some { id := "i1", name := "Beaker", category := "Glass",
             totalQuantity := 50, availableQuantity := 50 } :=
  (mutation_patches_insert_at_fixed_positions
      { items := [], users := [], logs := [], notifications := [],
        suggestions := [], comments := [] }
      { id := "i1", name := "Beaker", category := "Glass",
        totalQuantity := 50, availableQuantity := 50 }
      { newLog := { id := "l1", itemId := "i1", userId := "u1",
                    action := LogAction.BORROW, quantity := 1,
                    status := LogStatus.PENDING },
        newNotification := { id := "n1", ntype := "new_borrow_request", read := false } }
      { id := "c1", suggestionId := "s1", userId := "u1", text := "hi" }
      createUserResultEx
      { id := "i1", name := "Beaker", category := "Glass",
        totalQuantity := 50, availableQuantity := 50 }
      adminUser adminUser adminUser
      { id := "l1", itemId := "i1", userId := "u1",
        action := LogAction.BORROW, quantity := 1, status := LogStatus.DENIED }
      { updatedLog := { id := "l1", itemId := "i1", userId := "u1",
                        action := LogAction.BORROW, quantity := 1,
                        status := LogStatus.APPROVED },
        updatedItem := { id := "i1", name := "Beaker", category := "Glass",
                         totalQuantity := 50, availableQuantity := 49 } }
      { returnLog := { id := "r1", itemId := "i1", userId := "u1",
                       action := LogAction.RETURN, quantity := 1,
                       status := LogStatus.RETURNED },
        updatedBorrowLog := { id := "l1", itemId := "i1", userId := "u1",
                              action := LogAction.BORROW, quantity := 1,
                              status := LogStatus.RETURNED },
        updatedItem := { id := "i1", name := "Beaker", category := "Glass",
                         totalQuantity := 50, availableQuantity := 50 } }
      { updatedLog := { id := "l1", itemId := "i1", userId := "u1",
                        action := LogAction.BORROW, quantity := 1,
                        status := LogStatus.APPROVED },
        newNotification := { id := "n2", ntype := "return_request", read := false } }
      ["n1"]
      { id := "s1", description := "new glassware" }
      { updatedSuggestion := { id := "s1", description := "new glassware" },
        newItem := { id := "i2", name := "Flask", category := "Glass",
                     totalQuantity := 10, availableQuantity := 10 } }
      { id := "s1", description := "new glassware" }
      { updatedSuggestion := { id := "s1", description := "new glassware" },
        newComment := { id := "c2", suggestionId := "s1", userId := "a1",
                        text := "denied" } }
      [{ id := "i3", name := "Stand", category := "Metal",
         totalQuantity := 3, availableQuantity := 3 }]
      "ghost").1.2.1

end OliLab
